import Mathlib

/-
Verification development for a browser-engine repository fragment.

The central subject is the network request interception pipeline declared in
src/services/network/network_service_network_delegate.h
(NetworkServiceNetworkDelegate).  Only the header is present in the
repository fragment; the bodies of the pipeline stages live in a .cc file
that is not part of src/.  The pipeline is therefore modelled from the
specification (section 4.1, 5 and 7 of spec.md), faithful to its words:
an ordered sequence of stages
  PreBlock, AdBlockPreFile, AdBlockFileWork, AdBlockPostFile,
  HttpsePreFile, HttpseFileWork, HttpsePostFile, PostBlock
with suspension at the two FileWork boundaries, a single-shot completion
callback, fail-open on evaluation failure, and weak-reference based
cancellation detection at suspension points.

Also embedded, directly from source files that are present in full:
  - src/third_party/blink/renderer/core/accessibility/apply_dark_mode.cc
  - src/chrome/browser/ui/extensions/app_launch_params.cc
  - src/pdf/pdfium/pdfium_page.h (inline members)
-/

namespace NetworkDelegate

/-- URLs are treated as opaque strings; the pipeline never inspects their
structure, it only forwards rewrite targets. -/
abbrev Url := String

/-- Pipeline stages, mirroring the stage methods declared in
network_service_network_delegate.h lines 73-106 (PreBlockersWork,
AdBlockPreFileWork, AdBlockFileWork, AdBlockPostFileWork, HttpsePreFileWork,
HttpseFileWork, HttpsePostFileWork, PostBlockers). -/
inductive Stage
  | preBlock
  | adBlockPreFile
  | adBlockFileWork
  | adBlockPostFile
  | httpsePreFile
  | httpseFileWork
  | httpsePostFile
  | postBlock
deriving DecidableEq, Repr

/-- Result code delivered through the single-shot completion callback.
The decision codes are PROCEED, REWRITE(url) and BLOCK (spec section 6);
`cancelled` is the cancellation-specific code of spec section 3
(RequestContext.completion invariant), which is not a decision. -/
inductive ResultCode
  | proceed
  | rewrite (url : Url)
  | block
  | cancelled
deriving DecidableEq, Repr

/-- Outcome of the ad-block rule evaluation performed during
AdBlockFileWork: the rule matched (block), did not match, or the
background evaluation failed to complete (worker destroyed, load error). -/
inductive AdBlockOutcome
  | blocked
  | notBlocked
  | evalFailure
deriving DecidableEq, Repr

/-- Outcome of the HTTPS-upgrade rule evaluation performed during
HttpseFileWork: a rewrite to a secure URL, no rewrite, or failure of the
background evaluation. -/
inductive HttpseOutcome
  | rewriteTo (url : Url)
  | noRewrite
  | evalFailure
deriving DecidableEq, Repr

/-- Environment of one request: what the (pure, read-only) rule tables
answer for this URL.  Spec section 3: rule lookups are pure functions of
the request, so one value per request suffices. -/
structure PipelineEnv where
  adBlock : AdBlockOutcome
  httpse : HttpseOutcome
deriving DecidableEq, Repr

/-- Cancellation can occur only while the pipeline is suspended, i.e. at
one of the two FileWork boundaries (spec section 5: suspension occurs only
at the two FileWork boundaries; everywhere else execution is synchronous). -/
inductive CancelPoint
  | noCancel
  | duringAdBlockWork
  | duringHttpseWork
deriving DecidableEq, Repr

/-- Who invokes the completion callback: the pipeline itself (delivering a
decision), or the host network stack (delivering the cancellation-specific
code when it destroys the request while the pipeline is suspended). -/
inductive Invoker
  | pipeline
  | host
deriving DecidableEq, Repr

/-- Observable events of one pipeline run. -/
inductive Event
  | stageEntered (s : Stage)
  | requestDestroyed
  | completionInvoked (inv : Invoker) (code : ResultCode)
deriving DecidableEq, Repr

/-- Result of a pipeline run: the event trace and the final value of the
new_url out-parameter of OnBeforeURLRequest (header line 71). -/
structure PipelineResult where
  trace : List Event
  newUrl : Option Url
deriving DecidableEq, Repr

/-- Modelled from the spec: the bodies of OnBeforeURLRequest and its stage
methods (network_service_network_delegate.h lines 69-106) are not in src/,
only their declarations.  Spec section 4.1 fixes the stage order
PreBlock, AdBlock pre/file/post, Httpse pre/file/post, PostBlock; BLOCK
short-circuits the HTTPSE stages; evaluation failure fails open to
PROCEED; spec sections 3 and 5: if the request is destroyed while a
FileWork stage is suspended, the host invokes the single-shot completion
with the cancellation-specific code and the pipeline resumption, seeing a
dead weak reference, abandons the stage without invoking completion. -/
def runPipeline (env : PipelineEnv) (cancel : CancelPoint) : PipelineResult :=
  let pre : List Event :=
    [Event.stageEntered Stage.preBlock,
     Event.stageEntered Stage.adBlockPreFile,
     Event.stageEntered Stage.adBlockFileWork]
  if cancel = CancelPoint.duringAdBlockWork then
    { trace := pre ++ [Event.requestDestroyed,
                       Event.completionInvoked Invoker.host ResultCode.cancelled],
      newUrl := none }
  else
    match env.adBlock with
    | AdBlockOutcome.evalFailure =>
        { trace := pre ++
            [Event.stageEntered Stage.adBlockPostFile,
             Event.completionInvoked Invoker.pipeline ResultCode.proceed],
          newUrl := none }
    | AdBlockOutcome.blocked =>
        { trace := pre ++
            [Event.stageEntered Stage.adBlockPostFile,
             Event.completionInvoked Invoker.pipeline ResultCode.block],
          newUrl := none }
    | AdBlockOutcome.notBlocked =>
        let mid : List Event := pre ++
          [Event.stageEntered Stage.adBlockPostFile,
           Event.stageEntered Stage.httpsePreFile,
           Event.stageEntered Stage.httpseFileWork]
        if cancel = CancelPoint.duringHttpseWork then
          { trace := mid ++ [Event.requestDestroyed,
                             Event.completionInvoked Invoker.host ResultCode.cancelled],
            newUrl := none }
        else
          match env.httpse with
          | HttpseOutcome.evalFailure =>
              { trace := mid ++
                  [Event.stageEntered Stage.httpsePostFile,
                   Event.completionInvoked Invoker.pipeline ResultCode.proceed],
                newUrl := none }
          | HttpseOutcome.noRewrite =>
              { trace := mid ++
                  [Event.stageEntered Stage.httpsePostFile,
                   Event.stageEntered Stage.postBlock,
                   Event.completionInvoked Invoker.pipeline ResultCode.proceed],
                newUrl := none }
          | HttpseOutcome.rewriteTo u =>
              { trace := mid ++
                  [Event.stageEntered Stage.httpsePostFile,
                   Event.stageEntered Stage.postBlock,
                   Event.completionInvoked Invoker.pipeline (ResultCode.rewrite u)],
                newUrl := some u }

/-- Whether an event is an invocation of the completion callback. -/
def isCompletion : Event → Bool
  | Event.completionInvoked _ _ => true
  | _ => false

/-- Whether an event is a completion invocation performed by the pipeline. -/
def isPipelineCompletion : Event → Bool
  | Event.completionInvoked Invoker.pipeline _ => true
  | _ => false

/-- Number of completion-callback invocations in a trace. -/
def completionCount (t : List Event) : Nat :=
  (t.filter isCompletion).length

/-- The result code of the first completion invocation in a trace. -/
def finalCode (t : List Event) : Option ResultCode :=
  (t.filterMap fun e =>
    match e with
    | Event.completionInvoked _ c => some c
    | _ => none).head?

/-- Whether any HTTPS-upgrade stage was entered during the run. -/
def httpseStageEntered (t : List Event) : Bool :=
  t.any fun e =>
    match e with
    | Event.stageEntered Stage.httpsePreFile => true
    | Event.stageEntered Stage.httpseFileWork => true
    | Event.stageEntered Stage.httpsePostFile => true
    | _ => false

/-- Origins are opaque identifiers. -/
abbrev Origin := String

/-- Modelled from the spec: the bodies of OnCanSendReportingReports and
FinishedCanSendReportingReports (network_service_network_delegate.h lines
61-63 and 115-117) are not in src/.  Spec section 4.2: CanSendReports
consults per-origin permission storage and delivers the subset of the
input origins that are allowed; it must not add origins. -/
def canSendReports (allowed : Origin → Bool) (origins : List Origin) : List Origin :=
  origins.filter allowed

/-- Request identifiers are opaque. -/
abbrev RequestId := Nat

/-- Modelled from the spec: the body of FinishedClearSiteData
(network_service_network_delegate.h lines 113-114) is not in src/; its
declaration takes a base::WeakPtr to the request, modelled as an Option.
Spec section 4.3: on clear completion, success or failure alike, the
handler resumes the deferred request with PROCEED; if the weak reference
is dangling (request destroyed while clearing was in flight) the callback
no-ops and resumes nothing. -/
def finishedClearSiteData (request : Option RequestId) (clearSucceeded : Bool) :
    Option ResultCode :=
  match request with
  | none => none
  | some _ => some ResultCode.proceed

end NetworkDelegate

namespace ApplyDarkMode

/-- Blink DarkMode enum (dark_mode_settings.h, external; the variants used
by apply_dark_mode.cc are kOff, kInvertBrightness, kInvertLightness,
kInvertLightnessLAB, plus whatever frame settings carry). -/
inductive DarkMode
  | kOff
  | kSimpleInvertForTesting
  | kInvertBrightness
  | kInvertLightness
  | kInvertLightnessLAB
deriving DecidableEq, Repr

/-- Blink DarkModeImagePolicy enum. -/
inductive DarkModeImagePolicy
  | kFilterNone
  | kFilterAll
  | kFilterSmart
deriving DecidableEq, Repr

/-- Blink DarkModePagePolicy enum, matched in
ShouldApplyDarkModeFilterToPage (apply_dark_mode.cc lines 123-128). -/
inductive DarkModePagePolicy
  | kFilterAll
  | kFilterByBackground
deriving DecidableEq, Repr

/-- ForceDarkInversionMethod feature-param enum (forcedark_switches.h,
external), matched in GetMode (apply_dark_mode.cc lines 43-52). -/
inductive ForceDarkInversionMethod
  | kUseBlinkSettings
  | kCielabBased
  | kHslBased
  | kRgbBased
deriving DecidableEq, Repr

/-- ForceDarkImageBehavior feature-param enum, matched in GetImagePolicy
(apply_dark_mode.cc lines 56-63). -/
inductive ForceDarkImageBehavior
  | kUseBlinkSettings
  | kInvertNone
  | kInvertSelectively
deriving DecidableEq, Repr

/-- A color as apply_dark_mode.cc observes it: an alpha channel read
directly, and the rest of the channels opaque to this file (they are
consumed only through the external brightness classifier). -/
structure Color where
  alpha : Int
  channels : Nat
deriving DecidableEq, Repr

/-- The slice of ComputedStyle read by apply_dark_mode.cc:
DarkColorScheme(), HasBackground() and the visited-dependent background
color. -/
structure ComputedStyle where
  darkColorScheme : Bool
  hasBackground : Bool
  visitedDependentBackgroundColor : Color
deriving DecidableEq, Repr

/-- A LayoutView as observed by apply_dark_mode.cc: only StyleRef(). -/
structure LayoutView where
  style : ComputedStyle
deriving DecidableEq, Repr

/-- The slice of frame Settings read by apply_dark_mode.cc.  The two float
fields (contrast, image grayscale percent) are copied opaquely and never
inspected, so they are embedded as Int placeholders. -/
structure Settings where
  darkMode : DarkMode
  darkModeImagePolicy : DarkModeImagePolicy
  darkModePagePolicy : DarkModePagePolicy
  darkModeTextBrightnessThreshold : Int
  darkModeBackgroundBrightnessThreshold : Int
  darkModeGrayscale : Bool
  darkModeContrast : Int
  darkModeImageGrayscale : Int
deriving DecidableEq, Repr

/-- The process-global inputs of apply_dark_mode.cc: the field-trial
feature parameters and the external brightness classifier
DarkModeColorClassifier::CalculateColorBrightness.  The integer field-trial
params default to -1 when unset, exactly as GetFieldTrialParamByFeatureAsInt
is called in the source. -/
structure Externals where
  forceDarkInversionMethod : ForceDarkInversionMethod
  forceDarkImageBehavior : ForceDarkImageBehavior
  forceDarkTextLightnessThreshold : Int
  forceDarkBackgroundLightnessThreshold : Int
  calculateColorBrightness : Color → Int

/-- apply_dark_mode.cc line 19. -/
def kAlphaThreshold : Int := 100

/-- apply_dark_mode.cc line 20. -/
def kBrightnessThreshold : Int := 50

/-- HasLightBackground, apply_dark_mode.cc lines 26-40. -/
def HasLightBackground (ext : Externals) (root : LayoutView) : Bool :=
  let style := root.style
  if !style.hasBackground then
    true
  else
    let color := style.visitedDependentBackgroundColor
    if color.alpha < kAlphaThreshold then
      true
    else
      ext.calculateColorBrightness color > kBrightnessThreshold

/-- GetMode, apply_dark_mode.cc lines 42-53. -/
def GetMode (ext : Externals) (frame_settings : Settings) : DarkMode :=
  match ext.forceDarkInversionMethod with
  | ForceDarkInversionMethod.kUseBlinkSettings => frame_settings.darkMode
  | ForceDarkInversionMethod.kCielabBased => DarkMode.kInvertLightnessLAB
  | ForceDarkInversionMethod.kHslBased => DarkMode.kInvertLightness
  | ForceDarkInversionMethod.kRgbBased => DarkMode.kInvertBrightness

/-- GetImagePolicy, apply_dark_mode.cc lines 55-64. -/
def GetImagePolicy (ext : Externals) (frame_settings : Settings) : DarkModeImagePolicy :=
  match ext.forceDarkImageBehavior with
  | ForceDarkImageBehavior.kUseBlinkSettings => frame_settings.darkModeImagePolicy
  | ForceDarkImageBehavior.kInvertNone => DarkModeImagePolicy.kFilterNone
  | ForceDarkImageBehavior.kInvertSelectively => DarkModeImagePolicy.kFilterSmart

/-- GetTextBrightnessThreshold, apply_dark_mode.cc lines 66-72. -/
def GetTextBrightnessThreshold (ext : Externals) (frame_settings : Settings) : Int :=
  let flag_value := ext.forceDarkTextLightnessThreshold
  if flag_value >= 0 then flag_value
  else frame_settings.darkModeTextBrightnessThreshold

/-- GetBackgroundBrightnessThreshold, apply_dark_mode.cc lines 74-81. -/
def GetBackgroundBrightnessThreshold (ext : Externals) (frame_settings : Settings) : Int :=
  let flag_value := ext.forceDarkBackgroundLightnessThreshold
  if flag_value >= 0 then flag_value
  else frame_settings.darkModeBackgroundBrightnessThreshold

/-- ShouldApplyDarkModeFilterToPage, apply_dark_mode.cc lines 118-129. -/
def ShouldApplyDarkModeFilterToPage (ext : Externals) (policy : DarkModePagePolicy)
    (root : LayoutView) : Bool :=
  if root.style.darkColorScheme then
    false
  else
    match policy with
    | DarkModePagePolicy.kFilterAll => true
    | DarkModePagePolicy.kFilterByBackground => HasLightBackground ext root

/-- The DarkModeSettings struct populated by BuildDarkModeSettings; float
fields embedded as Int placeholders (copied, never inspected). -/
structure DarkModeSettings where
  mode : DarkMode
  image_policy : DarkModeImagePolicy
  text_brightness_threshold : Int
  background_brightness_threshold : Int
  grayscale : Bool
  contrast : Int
  image_grayscale_percent : Int
deriving DecidableEq, Repr

/-- BuildDarkModeSettings, apply_dark_mode.cc lines 85-116.  `init` is the
default-constructed DarkModeSettings of line 87, whose default field
values come from a header outside this repository fragment; in the
early-return branch the source assigns only mode and image_policy on top
of those defaults. -/
def BuildDarkModeSettings (ext : Externals) (init : DarkModeSettings)
    (frame_settings : Settings) (root : LayoutView) : DarkModeSettings :=
  if !(ShouldApplyDarkModeFilterToPage ext frame_settings.darkModePagePolicy root) then
    { init with
        mode := DarkMode.kOff,
        image_policy := DarkModeImagePolicy.kFilterNone }
  else
    { mode := GetMode ext frame_settings,
      image_policy := GetImagePolicy ext frame_settings,
      text_brightness_threshold := GetTextBrightnessThreshold ext frame_settings,
      background_brightness_threshold := GetBackgroundBrightnessThreshold ext frame_settings,
      grayscale := frame_settings.darkModeGrayscale,
      contrast := frame_settings.darkModeContrast,
      image_grayscale_percent := frame_settings.darkModeImageGrayscale }

end ApplyDarkMode

namespace AppLaunch

/-- ui::WindowOpenDisposition (external enum); the variants tested by
CreateAppLaunchParamsWithEventFlags plus the remaining standard ones. -/
inductive WindowOpenDisposition
  | unknown
  | currentTab
  | singletonTab
  | newForegroundTab
  | newBackgroundTab
  | newPopup
  | newWindow
  | saveToDisk
  | offTheRecord
  | ignoreAction
  | switchToTab
deriving DecidableEq, Repr

/-- apps::mojom::LaunchContainer (external enum). -/
inductive LaunchContainer
  | kLaunchContainerWindow
  | kLaunchContainerPanelDeprecated
  | kLaunchContainerTab
  | kLaunchContainerNone
deriving DecidableEq, Repr

/-- Profiles are opaque identifiers. -/
abbrev ProfileId := Nat

/-- Extension identifiers are opaque. -/
abbrev ExtensionId := String

/-- apps::mojom::AppLaunchSource is copied opaquely. -/
abbrev AppLaunchSource := Nat

/-- The AppLaunchParams aggregate as constructed by
app_launch_params.cc lines 58-59. -/
structure AppLaunchParams where
  profile : ProfileId
  app_id : ExtensionId
  container : LaunchContainer
  disposition : WindowOpenDisposition
  source : AppLaunchSource
  display_id : Int
deriving DecidableEq, Repr

/-- CreateAppLaunchParamsWithEventFlags, app_launch_params.cc lines 33-60.
The two external lookups are passed in as functions:
dispositionFromEventFlags embeds ui::DispositionFromEventFlags and
getLaunchContainer embeds
extensions::GetLaunchContainer(ExtensionPrefs::Get(profile), extension). -/
def CreateAppLaunchParamsWithEventFlags
    (dispositionFromEventFlags : Int → WindowOpenDisposition)
    (getLaunchContainer : ProfileId → ExtensionId → LaunchContainer)
    (profile : ProfileId) (extension : ExtensionId) (event_flags : Int)
    (source : AppLaunchSource) (display_id : Int) : AppLaunchParams :=
  let raw_disposition := dispositionFromEventFlags event_flags
  if raw_disposition = WindowOpenDisposition.newForegroundTab ∨
     raw_disposition = WindowOpenDisposition.newBackgroundTab then
    { profile := profile, app_id := extension,
      container := LaunchContainer.kLaunchContainerTab,
      disposition := raw_disposition,
      source := source, display_id := display_id }
  else if raw_disposition = WindowOpenDisposition.newWindow then
    { profile := profile, app_id := extension,
      container := LaunchContainer.kLaunchContainerWindow,
      disposition := raw_disposition,
      source := source, display_id := display_id }
  else
    { profile := profile, app_id := extension,
      container := getLaunchContainer profile extension,
      disposition := WindowOpenDisposition.newForegroundTab,
      source := source, display_id := display_id }

end AppLaunch

namespace PdfiumPage

/-- A rectangle, copied opaquely by set_rect. -/
structure Rect where
  x : Int
  y : Int
  w : Int
  h : Int
deriving DecidableEq, Repr

/-- The PDFiumPage state visible through pdfium_page.h: the members that
its operations can touch.  Page and text-page handles are modelled as
loaded/unloaded flags since their contents are external PDFium objects. -/
structure State where
  index_ : Int
  preventing_unload_count_ : Int
  rect_ : Rect
  calculated_links_ : Bool
  calculated_images_ : Bool
  calculated_page_object_text_run_breaks_ : Bool
  available_ : Bool
  page_loaded_ : Bool
  text_page_loaded_ : Bool
deriving DecidableEq, Repr

/-- The mutating operations a client can perform on a PDFiumPage, from the
public members of pdfium_page.h. -/
inductive Op
  | markAvailable
  | setRect (r : Rect)
  | setCalculatedLinks (b : Bool)
  | unload
  | getPage
  | getTextPage
  | calculateLinks
  | calculateImages
deriving DecidableEq, Repr

/-- One operation on a PDFiumPage.  MarkAvailable and the two setters are
inline in pdfium_page.h (lines 128, 133, 135-137) and embedded directly.
Modelled from the spec: the bodies of Unload, GetPage, GetTextPage,
CalculateLinks and CalculateImages live in a .cc file that is not in
src/; per the header they unload or lazily load the PDFium page data and
compute cached link and image locations, and per the header comment at
lines 130-131 availability is a one-way transition, so none of them
clears available_. -/
def step (s : State) : Op → State
  | Op.markAvailable => { s with available_ := true }
  | Op.setRect r => { s with rect_ := r }
  | Op.setCalculatedLinks b => { s with calculated_links_ := b }
  | Op.unload => { s with page_loaded_ := false, text_page_loaded_ := false }
  | Op.getPage => { s with page_loaded_ := true }
  | Op.getTextPage => { s with page_loaded_ := true, text_page_loaded_ := true }
  | Op.calculateLinks => { s with calculated_links_ := true }
  | Op.calculateImages => { s with calculated_images_ := true }

/-- The PDFiumPage constructor (pdfium_page.h line 34, body in the missing
.cc): availability is determined at construction from whether the
document data for the page has arrived, passed here as `availableAtBirth`. -/
def construct (i : Int) (availableAtBirth : Bool) : State :=
  { index_ := i,
    preventing_unload_count_ := 0,
    rect_ := { x := 0, y := 0, w := 0, h := 0 },
    calculated_links_ := false,
    calculated_images_ := false,
    calculated_page_object_text_run_breaks_ := false,
    available_ := availableAtBirth,
    page_loaded_ := false,
    text_page_loaded_ := false }

/-- Run a sequence of operations on a page. -/
def runOps (s : State) (ops : List Op) : State :=
  ops.foldl step s

end PdfiumPage

namespace NetworkDelegate

/-- C1: for every request entering the OnBeforeURLRequest pipeline, the
completion callback supplied by the network stack is invoked exactly once
-- never zero times and never more than once -- regardless of which stage
produced the decision, of cancellation, or of any internal error. -/
theorem completion_invoked_exactly_once
    (env : PipelineEnv) (cancel : CancelPoint) :
    completionCount (runPipeline env cancel).trace = 1 := by
  obtain ⟨a, h⟩ := env
  cases a <;> cases h <;> cases cancel <;> rfl

/-- C2: for every request on which ad-block evaluation decides BLOCK (the
evaluation completes, i.e. the request is not destroyed while the
ad-block file work is suspended), the final decision is BLOCK and none of
the HTTPS-upgrade stages is ever entered. -/
theorem adblock_block_short_circuits
    (env : PipelineEnv) (cancel : CancelPoint)
    (hB : env.adBlock = AdBlockOutcome.blocked)
    (hC : cancel ≠ CancelPoint.duringAdBlockWork) :
    finalCode (runPipeline env cancel).trace = some ResultCode.block ∧
      httpseStageEntered (runPipeline env cancel).trace = false := by
  obtain ⟨a, h⟩ := env
  cases a <;> cases h <;> cases cancel <;>
    first
    | exact ⟨rfl, rfl⟩
    | simp_all

/-- Witness for C2 at a concrete request. -/
theorem adblock_block_short_circuits_witness :
    finalCode (runPipeline
        { adBlock := AdBlockOutcome.blocked, httpse := HttpseOutcome.noRewrite }
        CancelPoint.noCancel).trace = some ResultCode.block ∧
      httpseStageEntered (runPipeline
        { adBlock := AdBlockOutcome.blocked, httpse := HttpseOutcome.noRewrite }
        CancelPoint.noCancel).trace = false :=
  adblock_block_short_circuits
    { adBlock := AdBlockOutcome.blocked, httpse := HttpseOutcome.noRewrite }
    CancelPoint.noCancel rfl (by decide)

/-- C3: for every request on which ad-block evaluation decides PROCEED and
HTTPS-upgrade evaluation decides REWRITE(u), the final decision delivered
through the completion callback is REWRITE(u) and the new_url
out-parameter is set to u. -/
theorem proceed_rewrite_final
    (env : PipelineEnv) (cancel : CancelPoint) (u : Url)
    (hA : env.adBlock = AdBlockOutcome.notBlocked)
    (hH : env.httpse = HttpseOutcome.rewriteTo u)
    (hC : cancel = CancelPoint.noCancel) :
    finalCode (runPipeline env cancel).trace = some (ResultCode.rewrite u) ∧
      (runPipeline env cancel).newUrl = some u := by
  obtain ⟨a, h⟩ := env
  subst hC
  cases a with
  | notBlocked =>
      cases h with
      | rewriteTo v =>
          obtain rfl : v = u := by injection hH
          exact ⟨rfl, rfl⟩
      | noRewrite => exact absurd hH (by simp)
      | evalFailure => exact absurd hH (by simp)
  | blocked => exact absurd hA (by simp)
  | evalFailure => exact absurd hA (by simp)

/-- Witness for C3 at a concrete request. -/
theorem proceed_rewrite_final_witness :
    finalCode (runPipeline
        { adBlock := AdBlockOutcome.notBlocked,
          httpse := HttpseOutcome.rewriteTo "https:example" }
        CancelPoint.noCancel).trace =
      some (ResultCode.rewrite "https:example") ∧
      (runPipeline
        { adBlock := AdBlockOutcome.notBlocked,
          httpse := HttpseOutcome.rewriteTo "https:example" }
        CancelPoint.noCancel).newUrl = some "https:example" :=
  proceed_rewrite_final
    { adBlock := AdBlockOutcome.notBlocked,
      httpse := HttpseOutcome.rewriteTo "https:example" }
    CancelPoint.noCancel "https:example" rfl rfl rfl

/-- C4: for every live request whose background rule evaluation fails to
complete (ad-block or HTTPS-upgrade file work fails), the pipeline still
invokes the completion callback exactly once, with the decision PROCEED
(fail open), never BLOCK and never leaving the request pending. -/
theorem eval_failure_fails_open
    (env : PipelineEnv)
    (hF : env.adBlock = AdBlockOutcome.evalFailure ∨
      (env.adBlock = AdBlockOutcome.notBlocked ∧
        env.httpse = HttpseOutcome.evalFailure)) :
    completionCount (runPipeline env CancelPoint.noCancel).trace = 1 ∧
      finalCode (runPipeline env CancelPoint.noCancel).trace =
        some ResultCode.proceed := by
  obtain ⟨a, h⟩ := env
  rcases hF with hF | ⟨hF, hH⟩ <;> cases a <;> cases h <;>
    first
    | exact ⟨rfl, rfl⟩
    | simp_all

/-- Witness for C4 at a concrete request. -/
theorem eval_failure_fails_open_witness :
    completionCount (runPipeline
        { adBlock := AdBlockOutcome.evalFailure, httpse := HttpseOutcome.noRewrite }
        CancelPoint.noCancel).trace = 1 ∧
      finalCode (runPipeline
        { adBlock := AdBlockOutcome.evalFailure, httpse := HttpseOutcome.noRewrite }
        CancelPoint.noCancel).trace = some ResultCode.proceed :=
  eval_failure_fails_open
    { adBlock := AdBlockOutcome.evalFailure, httpse := HttpseOutcome.noRewrite }
    (Or.inl rfl)

/-- C5: for every input set of origins, every origin in the allowed set
delivered by CanSendReports is an element of the input set; no origin
outside the input is ever added. -/
theorem canSendReports_subset
    (allowed : Origin → Bool) (origins : List Origin) (o : Origin)
    (h : o ∈ canSendReports allowed origins) : o ∈ origins :=
  List.mem_of_mem_filter h

/-- Witness for C5 at a concrete origin set. -/
theorem canSendReports_subset_witness :
    "a" ∈ canSendReports (fun x => x ≠ "b") ["a", "b", "c"] ∧
      "a" ∈ ["a", "b", "c"] :=
  ⟨by decide,
   canSendReports_subset (fun x => x ≠ "b") ["a", "b", "c"] "a" (by decide)⟩

/-- C6: for every request deferred by the clear-site-data handler, when
the asynchronous clear completes -- whether it succeeded or failed -- the
handler resumes the deferred request with PROCEED; a clearing failure is
never propagated as a request failure. -/
theorem clear_site_data_resumes_proceed
    (r : RequestId) (clearSucceeded : Bool) :
    finishedClearSiteData (some r) clearSucceeded = some ResultCode.proceed :=
  rfl

/-- C7: for every request destroyed while an asynchronous stage is in
flight, the deferred resumption detects the dangling weak reference and
no-ops: the clear-site-data resumption resumes nothing when the weak
pointer is dead, and a pipeline run in which the request was destroyed at
a suspension point contains no pipeline-invoked completion. -/
theorem destroyed_request_no_completion :
    (∀ clearSucceeded : Bool,
        finishedClearSiteData none clearSucceeded = none) ∧
      (∀ (env : PipelineEnv) (cancel : CancelPoint),
        Event.requestDestroyed ∈ (runPipeline env cancel).trace →
          (runPipeline env cancel).trace.filter isPipelineCompletion = []) := by
  refine ⟨fun _ => rfl, fun env cancel h => ?_⟩
  obtain ⟨a, hh⟩ := env
  cases a <;> cases hh <;> cases cancel <;> first | rfl | simp_all [runPipeline]

/-- Witness for C7 at a concrete cancelled request. -/
theorem destroyed_request_no_completion_witness :
    finishedClearSiteData none true = none ∧
      (runPipeline
        { adBlock := AdBlockOutcome.blocked, httpse := HttpseOutcome.noRewrite }
        CancelPoint.duringAdBlockWork).trace.filter isPipelineCompletion = [] :=
  ⟨destroyed_request_no_completion.1 true,
   destroyed_request_no_completion.2
     { adBlock := AdBlockOutcome.blocked, httpse := HttpseOutcome.noRewrite }
     CancelPoint.duringAdBlockWork (by decide)⟩

end NetworkDelegate

namespace ApplyDarkMode

/-- C8: for every LayoutView whose computed style reports a dark color
scheme, ShouldApplyDarkModeFilterToPage returns false for every page
policy; and whenever ShouldApplyDarkModeFilterToPage returns false,
BuildDarkModeSettings returns settings with mode kOff and image_policy
kFilterNone. -/
theorem dark_scheme_filter_off :
    (∀ (ext : Externals) (policy : DarkModePagePolicy) (root : LayoutView),
        root.style.darkColorScheme = true →
          ShouldApplyDarkModeFilterToPage ext policy root = false) ∧
      (∀ (ext : Externals) (init : DarkModeSettings) (frame_settings : Settings)
          (root : LayoutView),
        ShouldApplyDarkModeFilterToPage ext frame_settings.darkModePagePolicy root
            = false →
          (BuildDarkModeSettings ext init frame_settings root).mode = DarkMode.kOff ∧
            (BuildDarkModeSettings ext init frame_settings root).image_policy
              = DarkModeImagePolicy.kFilterNone) := by
  constructor
  · intro ext policy root h
    simp [ShouldApplyDarkModeFilterToPage, h]
  · intro ext init frame_settings root h
    simp [BuildDarkModeSettings, h]

/-- Witness for C8 at a concrete dark-scheme page. -/
theorem dark_scheme_filter_off_witness :
    ShouldApplyDarkModeFilterToPage
        { forceDarkInversionMethod := ForceDarkInversionMethod.kUseBlinkSettings,
          forceDarkImageBehavior := ForceDarkImageBehavior.kUseBlinkSettings,
          forceDarkTextLightnessThreshold := -1,
          forceDarkBackgroundLightnessThreshold := -1,
          calculateColorBrightness := fun _ => 0 }
        DarkModePagePolicy.kFilterAll
        { style :=
            { darkColorScheme := true, hasBackground := true,
              visitedDependentBackgroundColor := { alpha := 255, channels := 0 } } }
      = false :=
  dark_scheme_filter_off.1
    { forceDarkInversionMethod := ForceDarkInversionMethod.kUseBlinkSettings,
      forceDarkImageBehavior := ForceDarkImageBehavior.kUseBlinkSettings,
      forceDarkTextLightnessThreshold := -1,
      forceDarkBackgroundLightnessThreshold := -1,
      calculateColorBrightness := fun _ => 0 }
    DarkModePagePolicy.kFilterAll
    { style :=
        { darkColorScheme := true, hasBackground := true,
          visitedDependentBackgroundColor := { alpha := 255, channels := 0 } } }
    rfl

end ApplyDarkMode

namespace AppLaunch

/-- C9: for every call to CreateAppLaunchParamsWithEventFlags, if the
disposition derived from event_flags is NEW_FOREGROUND_TAB or
NEW_BACKGROUND_TAB the result has container kLaunchContainerTab and that
same disposition; if it is NEW_WINDOW the result has container
kLaunchContainerWindow and disposition NEW_WINDOW; for every other
derived disposition the result has the container looked up from extension
preferences and disposition NEW_FOREGROUND_TAB. -/
theorem create_app_launch_params_cases
    (dispositionFromEventFlags : Int → WindowOpenDisposition)
    (getLaunchContainer : ProfileId → ExtensionId → LaunchContainer)
    (profile : ProfileId) (extension : ExtensionId) (event_flags : Int)
    (source : AppLaunchSource) (display_id : Int) :
    ((dispositionFromEventFlags event_flags = WindowOpenDisposition.newForegroundTab ∨
        dispositionFromEventFlags event_flags = WindowOpenDisposition.newBackgroundTab) →
      (CreateAppLaunchParamsWithEventFlags dispositionFromEventFlags getLaunchContainer
          profile extension event_flags source display_id).container
          = LaunchContainer.kLaunchContainerTab ∧
        (CreateAppLaunchParamsWithEventFlags dispositionFromEventFlags getLaunchContainer
          profile extension event_flags source display_id).disposition
          = dispositionFromEventFlags event_flags) ∧
    (dispositionFromEventFlags event_flags = WindowOpenDisposition.newWindow →
      (CreateAppLaunchParamsWithEventFlags dispositionFromEventFlags getLaunchContainer
          profile extension event_flags source display_id).container
          = LaunchContainer.kLaunchContainerWindow ∧
        (CreateAppLaunchParamsWithEventFlags dispositionFromEventFlags getLaunchContainer
          profile extension event_flags source display_id).disposition
          = WindowOpenDisposition.newWindow) ∧
    (¬(dispositionFromEventFlags event_flags = WindowOpenDisposition.newForegroundTab ∨
        dispositionFromEventFlags event_flags = WindowOpenDisposition.newBackgroundTab ∨
        dispositionFromEventFlags event_flags = WindowOpenDisposition.newWindow) →
      (CreateAppLaunchParamsWithEventFlags dispositionFromEventFlags getLaunchContainer
          profile extension event_flags source display_id).container
          = getLaunchContainer profile extension ∧
        (CreateAppLaunchParamsWithEventFlags dispositionFromEventFlags getLaunchContainer
          profile extension event_flags source display_id).disposition
          = WindowOpenDisposition.newForegroundTab) := by
  unfold CreateAppLaunchParamsWithEventFlags
  generalize dispositionFromEventFlags event_flags = raw
  cases raw <;> refine ⟨fun h1 => ?_, fun h2 => ?_, fun h3 => ?_⟩ <;>
    first
    | exact ⟨rfl, rfl⟩
    | simp_all

/-- Witness for C9 at a concrete event-flags derivation. -/
theorem create_app_launch_params_cases_witness :
    (CreateAppLaunchParamsWithEventFlags (fun _ => WindowOpenDisposition.newWindow)
        (fun _ _ => LaunchContainer.kLaunchContainerNone) 0 "ext" 0 0 0).container
        = LaunchContainer.kLaunchContainerWindow ∧
      (CreateAppLaunchParamsWithEventFlags (fun _ => WindowOpenDisposition.newWindow)
        (fun _ _ => LaunchContainer.kLaunchContainerNone) 0 "ext" 0 0 0).disposition
        = WindowOpenDisposition.newWindow :=
  (create_app_launch_params_cases (fun _ => WindowOpenDisposition.newWindow)
    (fun _ _ => LaunchContainer.kLaunchContainerNone) 0 "ext" 0 0 0).2.1 rfl

end AppLaunch

namespace PdfiumPage

/-- Availability is preserved by every single operation: MarkAvailable
sets it and nothing clears it. -/
theorem step_preserves_available (s : State) (op : Op)
    (h : s.available_ = true) : (step s op).available_ = true := by
  cases op <;> simp [step] <;> exact h

/-- C10: availability of a PDFiumPage is a one-way transition: it is
determined at construction, MarkAvailable sets it to true, and no
sequence of operations ever resets available() from true back to false. -/
theorem available_one_way :
    (∀ (i : Int) (b : Bool), (construct i b).available_ = b) ∧
      (∀ s : State, (step s Op.markAvailable).available_ = true) ∧
      (∀ (s : State) (ops : List Op),
        s.available_ = true → (runOps s ops).available_ = true) := by
  refine ⟨fun i b => rfl, fun s => rfl, fun s ops => ?_⟩
  induction ops generalizing s with
  | nil => exact fun h => h
  | cons op rest ih =>
      intro h
      exact ih (step s op) (step_preserves_available s op h)

/-- Witness for C10 on a concrete operation sequence. -/
theorem available_one_way_witness :
    (runOps (construct 0 true)
        [Op.getPage, Op.unload, Op.calculateLinks, Op.markAvailable,
         Op.setCalculatedLinks false]).available_ = true :=
  available_one_way.2.2 (construct 0 true)
    [Op.getPage, Op.unload, Op.calculateLinks, Op.markAvailable,
     Op.setCalculatedLinks false] rfl

end PdfiumPage
